import Mathlib

/-!
# Verification of the Coinbase Q3 forecast repository

Shallow embedding of the core computations of the repository:

* `scripts/subscriptions_model.py` — the Subscriptions & Services quarterly
  model (`calc_interest`, `calc_staking`, `calc_custody`, `run_model`,
  `load_config`);
* `scripts/q3_forecast.py` — the transaction-revenue estimator and the
  base/bull/bear scenario driver (`calculate_transaction_revenue`,
  `forecast_q3`);
* `scripts/build_sentiment_factor.py` — the sentiment factor pipeline
  (`zscore`, `trends_features`, the reddit feature block and `build_factor`).

Python floats are modelled as exact rationals `ℚ` (reals `ℝ` where the code
takes a square root); Python's `float("nan")` sentinel on the error fields is
modelled as `Option.none`.
-/

namespace Coinbase

/-- `InterestInputs` dataclass of `subscriptions_model.py` (numeric view, as
its field annotations declare). -/
structure InterestInputs where
  fiat_balance : ℚ
  fiat_rate : ℚ
  fiat_share : ℚ
  usdc_balance : ℚ
  usdc_rate : ℚ
  usdc_share : ℚ
deriving Repr, DecidableEq

/-- `StakingInputs` dataclass of `subscriptions_model.py`. -/
structure StakingInputs where
  eth_staked_units : ℚ
  eth_price : ℚ
  reward_apr : ℚ
  take_rate : ℚ
deriving Repr, DecidableEq

/-- `CustodyInputs` dataclass of `subscriptions_model.py`. -/
structure CustodyInputs where
  auc : ℚ
  fee_bps : ℚ
deriving Repr, DecidableEq

/-- `QuarterConfig` dataclass of `subscriptions_model.py`. -/
structure QuarterConfig where
  quarter : String
  reference_total : ℚ
  interest : InterestInputs
  staking : StakingInputs
  custody : CustodyInputs
  other : ℚ
deriving Repr, DecidableEq

/-- `calc_interest`: fiat pool yield share plus USDC pool yield share. -/
def calc_interest (iii : InterestInputs) : ℚ :=
  let fiat := iii.fiat_balance * iii.fiat_rate * iii.fiat_share
  let usdc := iii.usdc_balance * iii.usdc_rate * iii.usdc_share
  fiat + usdc

/-- `calc_staking`: annual rewards on staked notional, quarterly slice, times
the take rate. -/
def calc_staking (sss : StakingInputs) : ℚ :=
  let staked_notional := sss.eth_staked_units * sss.eth_price
  let annual_rewards := staked_notional * sss.reward_apr
  let quarterly_rewards := annual_rewards / 4
  quarterly_rewards * sss.take_rate

/-- `calc_custody`: ad-valorem fee on assets under custody. -/
def calc_custody (ccc : CustodyInputs) : ℚ :=
  ccc.auc * ccc.fee_bps

/-- Result dictionary of `run_model`.  In the Python code `error_abs` and
`error_pct` carry `float("nan")` when `reference_total` is falsy; the NaN
sentinel is modelled as `none`. -/
structure ModelResult where
  quarter : String
  interest : ℚ
  staking : ℚ
  custody : ℚ
  other : ℚ
  total : ℚ
  reference_total : ℚ
  error_abs : Option ℚ
  error_pct : Option ℚ
deriving Repr, DecidableEq

/-- `run_model`: composes the three calculators plus `other` into `total` and
computes the error metrics against `reference_total`.  The Python guard
`if cfg.reference_total` is float truthiness, i.e. `reference_total ≠ 0`. -/
def run_model (cfg : QuarterConfig) : ModelResult :=
  let interest := calc_interest cfg.interest
  let staking := calc_staking cfg.staking
  let custody := calc_custody cfg.custody
  let other := cfg.other
  let total := interest + staking + custody + other
  let err : Option ℚ :=
    if cfg.reference_total ≠ 0 then some (total - cfg.reference_total) else none
  let err_pct : Option ℚ :=
    if cfg.reference_total ≠ 0 then
      some ((total - cfg.reference_total) / cfg.reference_total * 100)
    else none
  { quarter := cfg.quarter
    interest := interest
    staking := staking
    custody := custody
    other := other
    total := total
    reference_total := cfg.reference_total
    error_abs := err
    error_pct := err_pct }

/-! ## `load_config`: parsing a quarter configuration JSON document

`load_config` reads a JSON file with `json.load` and builds a `QuarterConfig`
dataclass.  JSON values are modelled by `JVal`; the Python runtime errors that
a malformed document can raise (`KeyError` from `cfg["interest"]`, `TypeError`
from `InterestInputs(**...)` with missing/extra keyword arguments or from
`float` on a non-numeric non-string value, `ValueError` from `float` on a
non-numeric string) are modelled by `PyErr`.  The Python dataclasses do not
validate field types at runtime, so the loaded sub-records hold raw `JVal`
field values (`InterestInputsRaw` etc.). -/

/-- A JSON value as produced by `json.load`. -/
inductive JVal where
  | num (x : ℚ)
  | str (s : String)
  | bool (b : Bool)
  | null
  | arr (elems : List JVal)
  | obj (fields : List (String × JVal))

/-- Python exception classes that `load_config` can raise on a malformed
document.  `configError` models the dedicated `ConfigError` type that the
specification describes; the source defines no such class, and the theorems
below show `load_config` never produces it. -/
inductive PyErr where
  | keyError (k : String)
  | typeError
  | valueError
  | configError
deriving Repr, DecidableEq

/-- Key lookup in a JSON object (a `dict` after `json.load`, so keys are
unique; on a duplicated key this model takes the first occurrence). -/
def jlookup (fields : List (String × JVal)) (k : String) : Option JVal :=
  (fields.find? (fun p => p.1 == k)).map (fun p => p.2)

/-- Digit characters to the natural number they denote. -/
def digitsToNat (cs : List Char) : ℕ :=
  cs.foldl (fun a c => 10 * a + (c.toNat - 48)) 0

/-- Parse an unsigned decimal literal (`"12"`, `"12.5"`, `"12."`, `".5"`), the
forms Python's `float` accepts for plain decimals.  Exponent notation,
`inf`/`nan` and digit-group underscores are outside this model. -/
def parseUnsignedDecimal (cs : List Char) : Option ℚ :=
  let (ip, rest) := cs.span Char.isDigit
  match rest with
  | [] => if ip.isEmpty then none else some (digitsToNat ip : ℚ)
  | '.' :: fp =>
      if fp.all Char.isDigit && !(ip.isEmpty && fp.isEmpty) then
        some ((digitsToNat ip : ℚ) + (digitsToNat fp : ℚ) / 10 ^ fp.length)
      else none
  | _ => none

/-- Python `float(s)` on a string: strip surrounding whitespace, then an
optional sign and a decimal literal. -/
def pyParseFloat (s : String) : Option ℚ :=
  match s.trim.toList with
  | '-' :: rest => (parseUnsignedDecimal rest).map (fun q => -q)
  | '+' :: rest => parseUnsignedDecimal rest
  | cs => parseUnsignedDecimal cs

/-- Python `float(v)` on a JSON value: numbers pass through, booleans coerce
to 0/1, numeric strings parse (else `ValueError`), and `None`/lists/objects
raise `TypeError`. -/
def pyFloat (v : JVal) : Except PyErr ℚ :=
  match v with
  | .num x => .ok x
  | .bool b => .ok (if b then 1 else 0)
  | .str s =>
      match pyParseFloat s with
      | some q => .ok q
      | none => .error .valueError
  | .null => .error .typeError
  | .arr _ => .error .typeError
  | .obj _ => .error .typeError

/-- `InterestInputs` as actually populated by `load_config`: the dataclass
stores whatever values the JSON object held, without numeric validation. -/
structure InterestInputsRaw where
  fiat_balance : JVal
  fiat_rate : JVal
  fiat_share : JVal
  usdc_balance : JVal
  usdc_rate : JVal
  usdc_share : JVal

/-- `StakingInputs` as populated by `load_config` (raw values). -/
structure StakingInputsRaw where
  eth_staked_units : JVal
  eth_price : JVal
  reward_apr : JVal
  take_rate : JVal

/-- `CustodyInputs` as populated by `load_config` (raw values). -/
structure CustodyInputsRaw where
  auc : JVal
  fee_bps : JVal

/-- The required keyword arguments of `InterestInputs`. -/
def interestKeys : List String :=
  ["fiat_balance", "fiat_rate", "fiat_share",
   "usdc_balance", "usdc_rate", "usdc_share"]

/-- The required keyword arguments of `StakingInputs`. -/
def stakingKeys : List String :=
  ["eth_staked_units", "eth_price", "reward_apr", "take_rate"]

/-- The required keyword arguments of `CustodyInputs`. -/
def custodyKeys : List String :=
  ["auc", "fee_bps"]

/-- `InterestInputs(**v)`: `v` must be a JSON object supplying exactly the six
required keyword arguments, otherwise Python raises `TypeError` (missing
argument, unexpected argument, or `**` applied to a non-mapping). -/
def mkInterestRaw (v : JVal) : Except PyErr InterestInputsRaw :=
  match v with
  | .obj fs =>
      match jlookup fs "fiat_balance", jlookup fs "fiat_rate",
            jlookup fs "fiat_share", jlookup fs "usdc_balance",
            jlookup fs "usdc_rate", jlookup fs "usdc_share" with
      | some a, some b, some c, some d, some e, some f =>
          if fs.all (fun p => interestKeys.contains p.1) then
            .ok ⟨a, b, c, d, e, f⟩
          else .error .typeError
      | _, _, _, _, _, _ => .error .typeError
  | _ => .error .typeError

/-- `StakingInputs(**v)`, as in `mkInterestRaw`. -/
def mkStakingRaw (v : JVal) : Except PyErr StakingInputsRaw :=
  match v with
  | .obj fs =>
      match jlookup fs "eth_staked_units", jlookup fs "eth_price",
            jlookup fs "reward_apr", jlookup fs "take_rate" with
      | some a, some b, some c, some d =>
          if fs.all (fun p => stakingKeys.contains p.1) then
            .ok ⟨a, b, c, d⟩
          else .error .typeError
      | _, _, _, _ => .error .typeError
  | _ => .error .typeError

/-- `CustodyInputs(**v)`, as in `mkInterestRaw`. -/
def mkCustodyRaw (v : JVal) : Except PyErr CustodyInputsRaw :=
  match v with
  | .obj fs =>
      match jlookup fs "auc", jlookup fs "fee_bps" with
      | some a, some b =>
          if fs.all (fun p => custodyKeys.contains p.1) then
            .ok ⟨a, b⟩
          else .error .typeError
      | _, _ => .error .typeError
  | _ => .error .typeError

/-- The `QuarterConfig` record that `load_config` actually builds: `quarter`
is stored raw, `reference_total` and `other` pass through `float`, and the
three sub-records store raw values. -/
structure QuarterConfigRaw where
  quarter : JVal
  reference_total : ℚ
  interest : InterestInputsRaw
  staking : StakingInputsRaw
  custody : CustodyInputsRaw
  other : ℚ

/-- `load_config` of `subscriptions_model.py`, on the parsed JSON document
`src` (the file read itself is external I/O).  Python evaluates the
constructor arguments in source order: `quarter`, `reference_total`,
`interest`, `staking`, `custody`, `other`; a missing `reference_total` or
`other` key defaults to `0` via `cfg.get(..., 0)`. -/
def load_config (src : List (String × JVal)) : Except PyErr QuarterConfigRaw :=
  match jlookup src "quarter" with
  | none => .error (.keyError "quarter")
  | some q =>
    match pyFloat ((jlookup src "reference_total").getD (.num 0)) with
    | .error e => .error e
    | .ok ref =>
      match jlookup src "interest" with
      | none => .error (.keyError "interest")
      | some iv =>
        match mkInterestRaw iv with
        | .error e => .error e
        | .ok i =>
          match jlookup src "staking" with
          | none => .error (.keyError "staking")
          | some sv =>
            match mkStakingRaw sv with
            | .error e => .error e
            | .ok s =>
              match jlookup src "custody" with
              | none => .error (.keyError "custody")
              | some cv =>
                match mkCustodyRaw cv with
                | .error e => .error e
                | .ok c =>
                  match pyFloat ((jlookup src "other").getD (.num 0)) with
                  | .error e => .error e
                  | .ok oth => .ok ⟨q, ref, i, s, c, oth⟩

/-- Result dictionary of `calculate_transaction_revenue` in
`q3_forecast.py`. -/
structure TransactionRevenueResult where
  july : ℚ
  august : ℚ
  september : ℚ
  total : ℚ
  aug_sentiment : ℚ
  sep_sentiment : ℚ
deriving Repr, DecidableEq

/-- `calculate_transaction_revenue` of `q3_forecast.py`.  The August and
September sentiment factors are read from a CSV (with fallback `1.018` and
`1.015`) by `load_sentiment_factors`; that file read is external I/O, so the
loaded pair is passed as the parameters `aug_sentiment`/`sep_sentiment`.
The Python defaults are `aug_notional_b=72`, `sep_notional_b=80`,
`take_rate=0.0025`. -/
def calculate_transaction_revenue (aug_notional_b sep_notional_b take_rate
    aug_sentiment sep_sentiment : ℚ) : TransactionRevenueResult :=
  let july_rev : ℚ := 360000000
  let aug_rev := aug_notional_b * 1000000000 * take_rate * aug_sentiment
  let sep_rev := sep_notional_b * 1000000000 * take_rate * sep_sentiment
  let total_rev := july_rev + aug_rev + sep_rev
  { july := july_rev
    august := aug_rev
    september := sep_rev
    total := total_rev
    aug_sentiment := aug_sentiment
    sep_sentiment := sep_sentiment }

/-- The scenario totals reported by `forecast_q3`. -/
structure ScenarioTotals where
  base : ℚ
  bull : ℚ
  bear : ℚ
deriving Repr, DecidableEq

/-- The dictionary returned by `forecast_q3`. -/
structure ForecastResult where
  total_revenue : ℚ
  transaction_revenue : ℚ
  s_s_revenue : ℚ
  scenarios : ScenarioTotals
  transactions : TransactionRevenueResult
  s_s : ModelResult
deriving Repr, DecidableEq

/-- `forecast_q3` of `q3_forecast.py`.  The Q3 config is loaded from
`configs/q3_2025.json` (external I/O, passed as `cfg`), and the sentiment
factors from the monthly CSV (passed as `aug_sentiment`/`sep_sentiment`).
The base case uses the Python defaults `(72, 80, 0.0025)`; the bull case
overrides `sep_notional_b=88, take_rate=0.0027` (August keeps its default
`72`); the bear case uses `(65, 72, 0.0023)`.  All three scenario totals add
the same `run_model` output `s_s_results` computed once. -/
def forecast_q3 (cfg : QuarterConfig) (aug_sentiment sep_sentiment : ℚ) :
    ForecastResult :=
  let s_s_results := run_model cfg
  let trans_rev :=
    calculate_transaction_revenue 72 80 (25/10000) aug_sentiment sep_sentiment
  let total_revenue := trans_rev.total + s_s_results.total
  let base_total := total_revenue
  let bull_trans :=
    calculate_transaction_revenue 72 88 (27/10000) aug_sentiment sep_sentiment
  let bull_total := bull_trans.total + s_s_results.total
  let bear_trans :=
    calculate_transaction_revenue 65 72 (23/10000) aug_sentiment sep_sentiment
  let bear_total := bear_trans.total + s_s_results.total
  { total_revenue := total_revenue
    transaction_revenue := trans_rev.total
    s_s_revenue := s_s_results.total
    scenarios := { base := base_total, bull := bull_total, bear := bear_total }
    transactions := trans_rev
    s_s := s_s_results }

/-! ## `build_sentiment_factor.py`: the sentiment factor pipeline

The pipeline merges a Google-Trends frame and a Reddit frame into one daily
frame, fills gaps (`interpolate().bfill().ffill()`), z-scores the four feature
columns, blends them and clips the resulting factor.  Days of the build range
`start..end` are modelled as indices `0, …, n-1`.  A pandas `Series` over that
range is a function `ℕ → Option ℚ` (`none` = `NaN`/missing).  The network
fetches (`fetch_trends`, `fetch_reddit_counts_and_sentiment`) are external
I/O: the fetched Trends frame arrives as `trendsRows` (day index and averaged
`trends_value` per row; the frame need not cover every day) and the Reddit
frame as the per-day functions `reddit_volume`/`reddit_sentiment_raw` (the
Reddit fetch appends one record for every day of the range).  Standard
deviations take a real square root, so the z-score step lives in `ℝ`. -/

/-- Mean of a list of rationals (`Series.mean` over non-missing values; only
used on non-empty lists — emptiness is guarded wherever the code guards
against `NaN`). -/
def meanQ (l : List ℚ) : ℚ := l.sum / l.length

/-- Population variance (`Series.std(ddof=0)` squared). -/
def varQ (l : List ℚ) : ℚ :=
  (l.map (fun x => (x - meanQ l) ^ 2)).sum / l.length

/-- numpy banker's rounding of a real to the nearest integer (ties go to the
even neighbour). -/
noncomputable def roundHalfEven (x : ℝ) : ℤ :=
  if x - ⌊x⌋ < 1 / 2 then ⌊x⌋
  else if 1 / 2 < x - ⌊x⌋ then ⌊x⌋ + 1
  else if Even ⌊x⌋ then ⌊x⌋ else ⌊x⌋ + 1

/-- `Series.round(4)` on a real value. -/
noncomputable def roundTo4 (x : ℝ) : ℝ := (roundHalfEven (x * 10000) : ℝ) / 10000

/-- Banker's rounding on rationals, for the `round(3)` output columns. -/
def roundHalfEvenQ (x : ℚ) : ℤ :=
  if x - ⌊x⌋ < 1 / 2 then ⌊x⌋
  else if 1 / 2 < x - ⌊x⌋ then ⌊x⌋ + 1
  else if Even ⌊x⌋ then ⌊x⌋ else ⌊x⌋ + 1

/-- `Series.round(3)` on a rational value. -/
def roundTo3Q (x : ℚ) : ℚ := (roundHalfEvenQ (x * 1000) : ℚ) / 1000

/-- `np.clip(x, lo, hi)`. -/
noncomputable def clip (x lo hi : ℝ) : ℝ := min (max x lo) hi

/-- The `trends_level` column of `trends_features`: each row's value divided
by the baseline (mean of the rows in the first 28 days of the range, falling
back to the whole-frame mean when that window is empty, and to a divisor of
`1.0` when the baseline is zero — the Python truthiness guard). -/
def trends_level_list (rows : List (ℕ × ℚ)) : List ℚ :=
  let vals := rows.map (fun p => p.2)
  let baselineWin := (rows.filter (fun p => p.1 < 28)).map (fun p => p.2)
  let baseline := if baselineWin.isEmpty then meanQ vals else meanQ baselineWin
  vals.map (fun v => v / (if baseline = 0 then 1 else baseline))

/-- The `trends_momentum` column of `trends_features`: row value divided by
the trailing 28-row moving average (`rolling(28, min_periods=7)`); rows where
the window holds fewer than 7 observations, or where the moving average is
zero (the `inf`/`NaN` then `fillna(1.0)` path), yield `1`. -/
def trends_momentum_list (rows : List (ℕ × ℚ)) : List ℚ :=
  let vals := rows.map (fun p => p.2)
  (List.range vals.length).map (fun r =>
    let win := (vals.take (r + 1)).drop (r + 1 - 28)
    if win.length < 7 then 1
    else if meanQ win = 0 then 1
    else vals.getD r 0 / meanQ win)

/-- The `reddit_volume_mom` column: day's post count divided by the trailing
14-day moving average (`rolling(14, min_periods=7)`), with the same
`fillna(1.0)` path for short windows and zero averages. -/
def reddit_volume_mom_at (reddit_volume : ℕ → ℚ) (d : ℕ) : ℚ :=
  let win := ((List.range (d + 1)).drop (d + 1 - 14)).map reddit_volume
  if win.length < 7 then 1
  else if meanQ win = 0 then 1
  else reddit_volume d / meanQ win

/-- The `reddit_sentiment` column: `1 + raw_compound_score * 0.25`. -/
def reddit_sentiment_at (reddit_sentiment_raw : ℕ → ℚ) (d : ℕ) : ℚ :=
  1 + reddit_sentiment_raw d * (25 / 100)

/-- Scattering a per-row feature list back onto the daily index of the merged
frame: day `d` holds the feature of the trends row whose date is `d`, and is
missing (`NaN`) on days the trends frame does not cover.  (`json`-like frames
have unique dates; on a duplicate this model takes the first row.) -/
def scatterCol (rows : List (ℕ × ℚ)) (vals : List ℚ) : ℕ → Option ℚ :=
  fun d => ((rows.zip vals).find? (fun p => p.1.1 == d)).map (fun p => p.2)

/-- `Series.ffill()`: the value at `d`, or else the nearest earlier value. -/
def ffillF (col : ℕ → Option ℚ) : ℕ → Option ℚ
  | 0 => col 0
  | d + 1 =>
    match col (d + 1) with
    | some v => some v
    | none => ffillF col d

/-- `Series.bfill()` on the index range `0, …, n-1`: the value at `d`, or else
the nearest later value before `n`. -/
def bfillF (col : ℕ → Option ℚ) (n : ℕ) (d : ℕ) : Option ℚ :=
  if _h : d < n then
    match col d with
    | some v => some v
    | none => bfillF col n (d + 1)
  else none
termination_by n - d
decreasing_by omega

/-- The nearest valid observation at or before `d` (with its index). -/
def prevF (col : ℕ → Option ℚ) : ℕ → Option (ℕ × ℚ)
  | 0 => (col 0).map (fun v => (0, v))
  | d + 1 =>
    match col (d + 1) with
    | some v => some (d + 1, v)
    | none => prevF col d

/-- The nearest valid observation at or after `d` and before `n`. -/
def nextF (col : ℕ → Option ℚ) (n : ℕ) (d : ℕ) : Option (ℕ × ℚ) :=
  if _h : d < n then
    match col d with
    | some v => some (d, v)
    | none => nextF col n (d + 1)
  else none
termination_by n - d
decreasing_by omega

/-- `Series.interpolate()` (linear, default direction): values are kept;
a gap between two valid observations is filled linearly by index distance;
a trailing gap repeats the last valid value; a leading gap stays missing. -/
def interpF (col : ℕ → Option ℚ) (n : ℕ) (d : ℕ) : Option ℚ :=
  match col d with
  | some v => some v
  | none =>
    match d with
    | 0 => none
    | e + 1 =>
      match prevF col e with
      | none => none
      | some (i, vi) =>
        match nextF col n (e + 2) with
        | none => some vi
        | some (j, vj) =>
            some (vi + (vj - vi) * ((e + 1 - i : ℕ) : ℚ) / ((j - i : ℕ) : ℚ))

/-- The gap-filling loop of `build_factor`:
`df[col] = df[col].interpolate().bfill().ffill()`. -/
def fillColumn (col : ℕ → Option ℚ) (n : ℕ) : ℕ → Option ℚ :=
  ffillF (bfillF (interpF col n) n)

/-- `zscore` of `build_sentiment_factor.py` on a Series over the day range
`0, …, n-1`.  `mu` and `sd` are pandas mean/std (they skip missing values);
when `sd == 0 or np.isnan(sd)` — i.e. the non-missing values are constant or
there are none at all — every entry becomes exactly `0.0`; otherwise each
value is standardized and missing entries stay missing. -/
noncomputable def zscore (s : ℕ → Option ℚ) (n : ℕ) : ℕ → Option ℝ :=
  let somes := (List.range n).filterMap s
  fun d =>
    if somes.isEmpty ∨ varQ somes = 0 then some 0
    else (s d).map (fun x =>
      ((x : ℝ) - (meanQ somes : ℝ)) / Real.sqrt ((varQ somes : ℝ)))

/-- The weighted composite z-score `z` of `build_factor`:
`0.4·z(trends_level) + 0.2·z(trends_momentum) + 0.25·z(reddit_volume_mom) +
0.15·z(reddit_sentiment)` on the filled columns (missing propagates, as for
pandas Series arithmetic). -/
noncomputable def sentiment_z (n : ℕ) (trendsRows : List (ℕ × ℚ))
    (reddit_volume reddit_sentiment_raw : ℕ → ℚ) : ℕ → Option ℝ :=
  let colTL := fillColumn (scatterCol trendsRows (trends_level_list trendsRows)) n
  let colTM := fillColumn (scatterCol trendsRows (trends_momentum_list trendsRows)) n
  let colRV := fillColumn (fun d => some (reddit_volume_mom_at reddit_volume d)) n
  let colRS := fillColumn (fun d => some (reddit_sentiment_at reddit_sentiment_raw d)) n
  fun d =>
    match zscore colTL n d, zscore colTM n d, zscore colRV n d, zscore colRS n d with
    | some a, some b, some c, some e =>
        some ((4 / 10 : ℝ) * a + (2 / 10 : ℝ) * b +
          (25 / 100 : ℝ) * c + (15 / 100 : ℝ) * e)
    | _, _, _, _ => none

/-- One row of the daily output CSV of `build_factor`. -/
structure SentimentRecord where
  date : ℕ
  sentiment_factor : Option ℝ
  trends_level : Option ℚ
  trends_momentum : Option ℚ
  reddit_volume_mom : Option ℚ
  reddit_sentiment : Option ℚ
deriving Inhabited

/-- `build_factor` of `build_sentiment_factor.py` over a day range of length
`n` (the fetched frames are parameters, see the section comment).  The factor
is `1.0 + z * 0.015`, clipped to `[1.0 + max_down, 1.0 + max_up]` and rounded
to 4 decimals; the four feature columns are emitted rounded to 3 decimals.
The Python signature has defaults `max_up=0.05`, `max_down=-0.05`. -/
noncomputable def build_factor (n : ℕ) (trendsRows : List (ℕ × ℚ))
    (reddit_volume reddit_sentiment_raw : ℕ → ℚ) (max_up max_down : ℚ) :
    List SentimentRecord :=
  let colTL := fillColumn (scatterCol trendsRows (trends_level_list trendsRows)) n
  let colTM := fillColumn (scatterCol trendsRows (trends_momentum_list trendsRows)) n
  let colRV := fillColumn (fun d => some (reddit_volume_mom_at reddit_volume d)) n
  let colRS := fillColumn (fun d => some (reddit_sentiment_at reddit_sentiment_raw d)) n
  let z := sentiment_z n trendsRows reddit_volume reddit_sentiment_raw
  (List.range n).map (fun d =>
    { date := d
      sentiment_factor := (z d).map (fun zz =>
          roundTo4 (clip (1 + zz * (15 / 1000))
            ((1 + max_down : ℚ) : ℝ) ((1 + max_up : ℚ) : ℝ)))
      trends_level := (colTL d).map roundTo3Q
      trends_momentum := (colTM d).map roundTo3Q
      reddit_volume_mom := (colRV d).map roundTo3Q
      reddit_sentiment := (colRS d).map roundTo3Q })

/-! ### Totality of the gap-filling pass

`interpolate().bfill().ffill()` fills every day of a column that has at least
one observation, and leaves a column with no observation at all fully missing;
`zscore` then maps a fully missing column to all zeros.  These lemmas carry the
no-`NaN` argument for the sentiment factor. -/

theorem interpF_isSome (col : ℕ → Option ℚ) (n d : ℕ)
    (h : (col d).isSome) : (interpF col n d).isSome := by
  rcases Option.isSome_iff_exists.mp h with ⟨v, hv⟩
  cases d <;> simp [interpF, hv]

theorem bfillF_isSome (col : ℕ → Option ℚ) (n d0 : ℕ)
    (h0 : (col d0).isSome) (hn : d0 < n) :
    ∀ b, b ≤ d0 → (bfillF col n b).isSome := by
  have H : ∀ k b, d0 - b = k → b ≤ d0 → (bfillF col n b).isSome := by
    intro k
    induction k with
    | zero =>
      intro b hk hb
      have hbd : b = d0 := by omega
      subst hbd
      unfold bfillF
      rw [dif_pos hn]
      rcases Option.isSome_iff_exists.mp h0 with ⟨v, hv⟩
      simp [hv]
    | succ k ih =>
      intro b hk hb
      have hbn : b < n := by omega
      unfold bfillF
      rw [dif_pos hbn]
      cases hc : col b with
      | some v => simp
      | none => exact ih (b + 1) (by omega) (by omega)
  exact fun b hb => H (d0 - b) b rfl hb

theorem ffillF_isSome (col : ℕ → Option ℚ) (d0 : ℕ)
    (h0 : (col d0).isSome) :
    ∀ d, d0 ≤ d → (ffillF col d).isSome := by
  intro d
  induction d with
  | zero =>
    intro hd
    have h00 : d0 = 0 := by omega
    subst h00
    simpa [ffillF] using h0
  | succ e ih =>
    intro hd
    by_cases hde : d0 = e + 1
    · subst hde
      rcases Option.isSome_iff_exists.mp h0 with ⟨v, hv⟩
      simp [ffillF, hv]
    · have hle : d0 ≤ e := by omega
      cases hc : col (e + 1) with
      | some v => simp [ffillF, hc]
      | none =>
        simp only [ffillF, hc]
        exact ih hle

theorem fillColumn_isSome (col : ℕ → Option ℚ) (n : ℕ)
    (hex : ∃ d0, d0 < n ∧ (col d0).isSome) :
    ∀ d, d < n → (fillColumn col n d).isSome := by
  obtain ⟨d0, hd0n, h0⟩ := hex
  intro d hd
  have hI : (interpF col n d0).isSome := interpF_isSome col n d0 h0
  have hB : (bfillF (interpF col n) n (min d d0)).isSome :=
    bfillF_isSome (interpF col n) n d0 hI hd0n (min d d0) (min_le_right _ _)
  simpa only [fillColumn] using
    ffillF_isSome (bfillF (interpF col n) n) (min d d0) hB d (min_le_left _ _)

theorem prevF_none (col : ℕ → Option ℚ) (e : ℕ)
    (h : ∀ i, i ≤ e → col i = none) : prevF col e = none := by
  induction e with
  | zero => simp [prevF, h 0 le_rfl]
  | succ k ih =>
    simp only [prevF, h (k + 1) le_rfl]
    exact ih (fun i hi => h i (by omega))

theorem interpF_none (col : ℕ → Option ℚ) (n d : ℕ)
    (h : ∀ i, i ≤ d → col i = none) : interpF col n d = none := by
  cases d with
  | zero => simp [interpF, h 0 le_rfl]
  | succ e =>
    simp [interpF, h (e + 1) le_rfl,
      prevF_none col e (fun i hi => h i (by omega))]

theorem bfillF_none (col : ℕ → Option ℚ) (n : ℕ) :
    ∀ b, (∀ i, b ≤ i → i < n → col i = none) → bfillF col n b = none := by
  have H : ∀ k b, n - b = k → (∀ i, b ≤ i → i < n → col i = none) →
      bfillF col n b = none := by
    intro k
    induction k with
    | zero =>
      intro b hk h
      unfold bfillF
      rw [dif_neg (by omega)]
    | succ k ih =>
      intro b hk h
      unfold bfillF
      by_cases hbn : b < n
      · rw [dif_pos hbn]
        simp only [h b le_rfl hbn]
        exact ih (b + 1) (by omega) (fun i h1 h2 => h i (by omega) h2)
      · rw [dif_neg hbn]
  exact fun b h => H (n - b) b rfl h

theorem ffillF_none (col : ℕ → Option ℚ) :
    ∀ d, (∀ i, i ≤ d → col i = none) → ffillF col d = none := by
  intro d
  induction d with
  | zero => intro h; simp [ffillF, h 0 le_rfl]
  | succ e ih =>
    intro h
    simp only [ffillF, h (e + 1) le_rfl]
    exact ih (fun i hi => h i (by omega))

theorem fillColumn_none (col : ℕ → Option ℚ) (n : ℕ)
    (h : ∀ i, i < n → col i = none) :
    ∀ d, d < n → fillColumn col n d = none := by
  intro d hd
  have hB : ∀ b, b ≤ d → bfillF (interpF col n) n b = none := fun b _ =>
    bfillF_none (interpF col n) n b
      (fun i _ h2 => interpF_none col n i (fun j hj => h j (by omega)))
  simp only [fillColumn]
  exact ffillF_none (bfillF (interpF col n) n) d hB

theorem zscore_isSome_of_col (s : ℕ → Option ℚ) (n d : ℕ) (hd : d < n)
    (hcol : (∀ i, i < n → (s i).isSome) ∨ (∀ i, i < n → s i = none)) :
    (zscore s n d).isSome := by
  by_cases hg : ((List.range n).filterMap s).isEmpty ∨
      varQ ((List.range n).filterMap s) = 0
  · simp only [zscore]
    rw [if_pos hg]
    simp
  · rcases hcol with hcol | hcol
    · simp only [zscore]
      rw [if_neg hg]
      rcases Option.isSome_iff_exists.mp (hcol d hd) with ⟨v, hv⟩
      simp [hv]
    · exfalso
      have hnil : (List.range n).filterMap s = [] :=
        List.filterMap_eq_nil_iff.mpr (fun a ha => hcol a (List.mem_range.mp ha))
      simp [hnil] at hg

theorem fillColumn_total_or_empty (col : ℕ → Option ℚ) (n : ℕ) :
    (∀ i, i < n → (fillColumn col n i).isSome) ∨
      (∀ i, i < n → fillColumn col n i = none) := by
  by_cases hex : ∃ d0, d0 < n ∧ (col d0).isSome
  · exact Or.inl (fillColumn_isSome col n hex)
  · push_neg at hex
    refine Or.inr (fillColumn_none col n (fun i hi => ?_))
    have := hex i hi
    simpa [Option.not_isSome_iff_eq_none] using this

theorem sentiment_z_isSome (n : ℕ) (trendsRows : List (ℕ × ℚ))
    (reddit_volume reddit_sentiment_raw : ℕ → ℚ) (d : ℕ) (hd : d < n) :
    (sentiment_z n trendsRows reddit_volume reddit_sentiment_raw d).isSome := by
  have h1 := zscore_isSome_of_col
    (fillColumn (scatterCol trendsRows (trends_level_list trendsRows)) n) n d hd
    (fillColumn_total_or_empty _ n)
  have h2 := zscore_isSome_of_col
    (fillColumn (scatterCol trendsRows (trends_momentum_list trendsRows)) n) n d hd
    (fillColumn_total_or_empty _ n)
  have h3 := zscore_isSome_of_col
    (fillColumn (fun e => some (reddit_volume_mom_at reddit_volume e)) n) n d hd
    (fillColumn_total_or_empty _ n)
  have h4 := zscore_isSome_of_col
    (fillColumn (fun e => some (reddit_sentiment_at reddit_sentiment_raw e)) n) n d hd
    (fillColumn_total_or_empty _ n)
  rcases Option.isSome_iff_exists.mp h1 with ⟨a, ha⟩
  rcases Option.isSome_iff_exists.mp h2 with ⟨b, hb⟩
  rcases Option.isSome_iff_exists.mp h3 with ⟨c, hc⟩
  rcases Option.isSome_iff_exists.mp h4 with ⟨e, he⟩
  simp [sentiment_z, ha, hb, hc, he]

/-! ### Rounding and clipping bounds -/

theorem roundHalfEven_mem (x : ℝ) :
    ⌊x⌋ ≤ roundHalfEven x ∧ roundHalfEven x ≤ ⌈x⌉ := by
  unfold roundHalfEven
  by_cases h1 : x - ⌊x⌋ < 1 / 2
  · rw [if_pos h1]
    exact ⟨le_refl _, Int.floor_le_ceil x⟩
  · rw [if_neg h1]
    have hlt : (⌊x⌋ : ℝ) < x := by
      have := not_lt.mp h1
      linarith
    have hceil : ⌊x⌋ + 1 ≤ ⌈x⌉ := Int.lt_ceil.mpr hlt
    by_cases h2 : 1 / 2 < x - ⌊x⌋
    · rw [if_pos h2]
      exact ⟨(lt_add_one _).le, hceil⟩
    · rw [if_neg h2]
      by_cases h3 : Even ⌊x⌋
      · rw [if_pos h3]
        exact ⟨le_refl _, Int.floor_le_ceil x⟩
      · rw [if_neg h3]
        exact ⟨(lt_add_one _).le, hceil⟩

theorem round4_clip_band (z : ℝ) (md mu : ℚ) (a b : ℤ)
    (ha : md = (a : ℚ) / 10000) (hb : mu = (b : ℚ) / 10000) (hle : md ≤ mu) :
    ((1 + md : ℚ) : ℝ) ≤
      roundTo4 (clip (1 + z * (15 / 1000)) ((1 + md : ℚ) : ℝ) ((1 + mu : ℚ) : ℝ)) ∧
    roundTo4 (clip (1 + z * (15 / 1000)) ((1 + md : ℚ) : ℝ) ((1 + mu : ℚ) : ℝ)) ≤
      ((1 + mu : ℚ) : ℝ) := by
  have hlohi : ((1 + md : ℚ) : ℝ) ≤ ((1 + mu : ℚ) : ℝ) := by
    exact_mod_cast (by linarith : (1 + md : ℚ) ≤ 1 + mu)
  set c := clip (1 + z * (15 / 1000)) ((1 + md : ℚ) : ℝ) ((1 + mu : ℚ) : ℝ) with hcdef
  have hc1 : ((1 + md : ℚ) : ℝ) ≤ c := le_min (le_max_right _ _) hlohi
  have hc2 : c ≤ ((1 + mu : ℚ) : ℝ) := min_le_right _ _
  have hlo10 : ((1 + md : ℚ) : ℝ) * 10000 = ((10000 + a : ℤ) : ℝ) := by
    push_cast [ha]
    ring
  have hhi10 : ((1 + mu : ℚ) : ℝ) * 10000 = ((10000 + b : ℤ) : ℝ) := by
    push_cast [hb]
    ring
  have hL : ((10000 + a : ℤ) : ℝ) ≤ c * 10000 := by
    rw [← hlo10]
    nlinarith [hc1]
  have hH : c * 10000 ≤ ((10000 + b : ℤ) : ℝ) := by
    rw [← hhi10]
    nlinarith [hc2]
  have hr1 : (10000 + a : ℤ) ≤ ⌊c * 10000⌋ := Int.le_floor.mpr hL
  have hr2 : ⌈c * 10000⌉ ≤ (10000 + b : ℤ) := Int.ceil_le.mpr hH
  have hrhe := roundHalfEven_mem (c * 10000)
  have h5 : ((10000 + a : ℤ) : ℝ) ≤ (roundHalfEven (c * 10000) : ℝ) := by
    exact_mod_cast le_trans hr1 hrhe.1
  have h6 : (roundHalfEven (c * 10000) : ℝ) ≤ ((10000 + b : ℤ) : ℝ) := by
    exact_mod_cast le_trans hrhe.2 hr2
  constructor
  · rw [roundTo4]
    rw [le_div_iff₀ (by norm_num : (0 : ℝ) < 10000)]
    rw [hlo10]
    exact h5
  · rw [roundTo4]
    rw [div_le_iff₀ (by norm_num : (0 : ℝ) < 10000)]
    rw [hhi10]
    exact h6

/-! ### Constant series and the z-score -/

theorem filterMap_const_some (s : ℕ → Option ℚ) (n : ℕ) (c : ℚ)
    (h : ∀ d, d < n → s d = some c) :
    (List.range n).filterMap s = List.replicate n c := by
  induction n with
  | zero => simp
  | succ m ih =>
    rw [List.range_succ, List.filterMap_append,
      ih (fun d hd => h d (by omega))]
    simp [h m (by omega), ← List.replicate_succ' (n := m)]

theorem meanQ_replicate (m : ℕ) (c : ℚ) (hm : m ≠ 0) :
    meanQ (List.replicate m c) = c := by
  have hmq : (m : ℚ) ≠ 0 := Nat.cast_ne_zero.mpr hm
  simp [meanQ, List.sum_replicate]
  field_simp

theorem varQ_replicate (m : ℕ) (c : ℚ) : varQ (List.replicate m c) = 0 := by
  cases m with
  | zero => simp [varQ]
  | succ k =>
    have hmean := meanQ_replicate (k + 1) c (by omega)
    simp [varQ, hmean, List.map_replicate, List.sum_replicate]

end Coinbase

namespace Coinbase

/-- C1: for every `QuarterConfig`, `run_model` returns
`total = interest + staking + custody + other`, where the three components are
the component calculators applied to the config's sub-records and `other` is
carried through unchanged. -/
theorem run_model_total_decomposition (cfg : QuarterConfig) :
    (run_model cfg).total =
      calc_interest cfg.interest + calc_staking cfg.staking +
        calc_custody cfg.custody + cfg.other ∧
    (run_model cfg).other = cfg.other ∧
    (run_model cfg).interest = calc_interest cfg.interest ∧
    (run_model cfg).staking = calc_staking cfg.staking ∧
    (run_model cfg).custody = calc_custody cfg.custody := by
  refine ⟨rfl, rfl, rfl, rfl, rfl⟩

/-- C2: each component calculator equals its specified closed-form formula. -/
theorem component_calculators_formulas (i : InterestInputs) (s : StakingInputs)
    (c : CustodyInputs) :
    calc_interest i =
      i.fiat_balance * i.fiat_rate * i.fiat_share +
        i.usdc_balance * i.usdc_rate * i.usdc_share ∧
    calc_staking s =
      (s.eth_staked_units * s.eth_price * s.reward_apr / 4) * s.take_rate ∧
    calc_custody c = c.auc * c.fee_bps := by
  refine ⟨rfl, rfl, rfl⟩

/-- C3: with a positive reference total, both error fields are computed exactly
by their formulas; with a zero reference total, both carry the `none` sentinel
(the embedding of the Python `float("nan")`), which is distinguishable from a
numeric zero error. -/
theorem run_model_error_fields (cfg : QuarterConfig) :
    (0 < cfg.reference_total →
      (run_model cfg).error_abs =
        some ((run_model cfg).total - cfg.reference_total) ∧
      (run_model cfg).error_pct =
        some (((run_model cfg).total - cfg.reference_total) /
          cfg.reference_total * 100)) ∧
    (cfg.reference_total = 0 →
      (run_model cfg).error_abs = none ∧
      (run_model cfg).error_pct = none ∧
      (run_model cfg).error_abs ≠ some 0 ∧
      (run_model cfg).error_pct ≠ some 0) := by
  constructor
  · intro hpos
    have hne : cfg.reference_total ≠ 0 := ne_of_gt hpos
    constructor
    · simp [run_model, hne]
    · simp [run_model, hne]
  · intro hzero
    have : ¬ (cfg.reference_total ≠ 0) := by simp [hzero]
    refine ⟨?_, ?_, ?_, ?_⟩ <;> simp [run_model, this]

/-- A concrete backtest-style config (reference total `100`, model total
`105`) used by the C3 witness. -/
def sampleCfgRef : QuarterConfig :=
  ⟨"Qx", 100, ⟨10, 1, 1, 0, 0, 0⟩, ⟨0, 0, 0, 0⟩, ⟨0, 0⟩, 95⟩

/-- The same concrete config with reference total `0`, used by the C3
witness. -/
def sampleCfgNoRef : QuarterConfig :=
  ⟨"Qx", 0, ⟨10, 1, 1, 0, 0, 0⟩, ⟨0, 0, 0, 0⟩, ⟨0, 0⟩, 95⟩

/-- Witness for C3: a config with reference total `100` gets exact error
fields, and the same config with reference total `0` gets the sentinel. -/
theorem run_model_error_fields_witness :
    (run_model sampleCfgRef).error_pct = some 5 ∧
    (run_model sampleCfgNoRef).error_pct = none := by
  constructor
  · have h := (run_model_error_fields sampleCfgRef).1 (by norm_num [sampleCfgRef])
    rw [h.2]
    norm_num [run_model, calc_interest, calc_staking, calc_custody, sampleCfgRef]
  · exact ((run_model_error_fields sampleCfgNoRef).2 rfl).2.1

/-- `pyFloat` only raises `TypeError` or `ValueError`. -/
theorem pyFloat_err (v : JVal) (e : PyErr) (h : pyFloat v = .error e) :
    e = .typeError ∨ e = .valueError := by
  cases v <;> simp [pyFloat] at h <;> try simp [h.symm]
  case str s =>
    cases hp : pyParseFloat s <;> simp [hp] at h
    simp [h.symm]

/-- `mkInterestRaw` only raises `TypeError`. -/
theorem mkInterestRaw_err (v : JVal) (e : PyErr)
    (h : mkInterestRaw v = .error e) : e = .typeError := by
  unfold mkInterestRaw at h
  repeat' split at h
  all_goals simp_all

/-- `mkStakingRaw` only raises `TypeError`. -/
theorem mkStakingRaw_err (v : JVal) (e : PyErr)
    (h : mkStakingRaw v = .error e) : e = .typeError := by
  unfold mkStakingRaw at h
  repeat' split at h
  all_goals simp_all

/-- `mkCustodyRaw` only raises `TypeError`. -/
theorem mkCustodyRaw_err (v : JVal) (e : PyErr)
    (h : mkCustodyRaw v = .error e) : e = .typeError := by
  unfold mkCustodyRaw at h
  repeat' split at h
  all_goals simp_all

/-- A concrete config document that lacks the required `interest` sub-record
(counterexample input for C5). -/
def srcMissingInterest : List (String × JVal) :=
  [("quarter", JVal.str "Q1 2025")]

/-- C5 as stated is false on the code: on a document missing the required
`interest` sub-record, `load_config` raises the built-in `KeyError`, not a
dedicated `ConfigError` (the source defines no `ConfigError` class at all). -/
theorem load_config_counterexample :
    load_config srcMissingInterest = .error (.keyError "interest") ∧
    PyErr.keyError "interest" ≠ PyErr.configError := by
  exact ⟨rfl, by decide⟩

/-- C5 amended: `load_config` fails with the built-in Python exceptions, never
a dedicated `ConfigError`: a missing `interest`/`staking`/`custody` sub-record
raises `KeyError`, a missing required field inside a present sub-record raises
`TypeError`; when it succeeds, a missing `reference_total` or `other` key has
defaulted to `0`. -/
theorem load_config_amended (src : List (String × JVal)) :
    (∀ e, load_config src = .error e → e ≠ .configError) ∧
    (∀ cfg, load_config src = .ok cfg →
      (jlookup src "reference_total" = none → cfg.reference_total = 0) ∧
      (jlookup src "other" = none → cfg.other = 0)) ∧
    ((jlookup src "quarter").isSome →
      jlookup src "reference_total" = none →
      jlookup src "interest" = none →
      load_config src = .error (.keyError "interest")) ∧
    (∀ fs, (jlookup src "quarter").isSome →
      jlookup src "reference_total" = none →
      jlookup src "interest" = some (.obj fs) →
      jlookup fs "fiat_balance" = none →
      load_config src = .error .typeError) := by
  refine ⟨?_, ?_, ?_, ?_⟩
  · intro e h
    unfold load_config at h
    repeat' split at h
    all_goals (try (exact Except.noConfusion h))
    all_goals (injection h with h)
    all_goals (subst h)
    all_goals (try simp)
    all_goals
      first
      | (rcases pyFloat_err _ _ (by assumption) with h' | h' <;> simp [h'])
      | simp [mkInterestRaw_err _ _ (by assumption)]
      | simp [mkStakingRaw_err _ _ (by assumption)]
      | simp [mkCustodyRaw_err _ _ (by assumption)]
  · intro cfg h
    unfold load_config at h
    repeat' split at h
    all_goals (try (exact Except.noConfusion h))
    injection h with h
    subst h
    constructor <;> (intro hnone; simp_all [pyFloat])
  · intro h1 h2 h3
    obtain ⟨q, hq⟩ := Option.isSome_iff_exists.mp h1
    unfold load_config
    rw [hq, h2, h3]
    simp [pyFloat]
  · intro fs h1 h2 h3 h4
    obtain ⟨q, hq⟩ := Option.isSome_iff_exists.mp h1
    unfold load_config
    rw [hq, h2, h3]
    simp [pyFloat, mkInterestRaw, h4]

/-- A complete config document with no `reference_total` and no `other` key
(witness input for C5's default-to-zero clause). -/
def srcDefaults : List (String × JVal) :=
  [("quarter", JVal.str "Q3 2025"),
   ("interest", JVal.obj
     [("fiat_balance", JVal.num 25000000000), ("fiat_rate", JVal.num (54/1000)),
      ("fiat_share", JVal.num (22/100)), ("usdc_balance", JVal.num 28000000000),
      ("usdc_rate", JVal.num (54/1000)), ("usdc_share", JVal.num (35/10000))]),
   ("staking", JVal.obj
     [("eth_staked_units", JVal.num 33000000), ("eth_price", JVal.num 3500),
      ("reward_apr", JVal.num (4/100)), ("take_rate", JVal.num (115/1000))]),
   ("custody", JVal.obj
     [("auc", JVal.num 150000000000), ("fee_bps", JVal.num (13/100000))])]

/-- The `QuarterConfigRaw` that `load_config` produces on `srcDefaults`. -/
def srcDefaultsCfg : QuarterConfigRaw :=
  ⟨JVal.str "Q3 2025", 0,
   ⟨JVal.num 25000000000, JVal.num (54/1000), JVal.num (22/100),
    JVal.num 28000000000, JVal.num (54/1000), JVal.num (35/10000)⟩,
   ⟨JVal.num 33000000, JVal.num 3500, JVal.num (4/100), JVal.num (115/1000)⟩,
   ⟨JVal.num 150000000000, JVal.num (13/100000)⟩, 0⟩

/-- Witness for C5 (amended): on the concrete document missing `interest` the
loader raises `KeyError` (and that error is not `ConfigError`), and on a
concrete complete document without `reference_total`/`other` both default
to `0`. -/
theorem load_config_amended_witness :
    PyErr.keyError "interest" ≠ PyErr.configError ∧
    load_config srcMissingInterest = .error (.keyError "interest") ∧
    srcDefaultsCfg.reference_total = 0 ∧ srcDefaultsCfg.other = 0 := by
  have h3 := (load_config_amended srcMissingInterest).2.2.1
    (by rfl) (by rfl) (by rfl)
  refine ⟨(load_config_amended srcMissingInterest).1 _ h3, h3, ?_, ?_⟩
  · exact ((load_config_amended srcDefaults).2.1 srcDefaultsCfg (by rfl)).1
      (by rfl)
  · exact ((load_config_amended srcDefaults).2.1 srcDefaultsCfg (by rfl)).2
      (by rfl)

/-- C8: transaction revenue — August and September each equal notional (in
currency units) times take rate times that month's sentiment multiplier, July
is the fixed anchor with no multiplier, and the total is their sum. -/
theorem calculate_transaction_revenue_spec (a s t augS sepS : ℚ) :
    (calculate_transaction_revenue a s t augS sepS).august =
      a * 1000000000 * t * augS ∧
    (calculate_transaction_revenue a s t augS sepS).september =
      s * 1000000000 * t * sepS ∧
    (calculate_transaction_revenue a s t augS sepS).july = 360000000 ∧
    (calculate_transaction_revenue a s t augS sepS).total =
      (calculate_transaction_revenue a s t augS sepS).july +
        (calculate_transaction_revenue a s t augS sepS).august +
        (calculate_transaction_revenue a s t augS sepS).september := by
  refine ⟨rfl, rfl, rfl, rfl⟩

/-- C9: each of the three scenario totals of `forecast_q3` is that scenario's
transaction-revenue total plus the one S&S total `(run_model cfg).total`
computed once — scenarios perturb only the transaction parameters, never the
S&S side. -/
theorem forecast_q3_scenarios_share_s_s (cfg : QuarterConfig)
    (augS sepS : ℚ) :
    (forecast_q3 cfg augS sepS).s_s_revenue = (run_model cfg).total ∧
    (forecast_q3 cfg augS sepS).scenarios.base =
      (calculate_transaction_revenue 72 80 (25/10000) augS sepS).total +
        (run_model cfg).total ∧
    (forecast_q3 cfg augS sepS).scenarios.bull =
      (calculate_transaction_revenue 72 88 (27/10000) augS sepS).total +
        (run_model cfg).total ∧
    (forecast_q3 cfg augS sepS).scenarios.bear =
      (calculate_transaction_revenue 65 72 (23/10000) augS sepS).total +
        (run_model cfg).total := by
  refine ⟨rfl, rfl, rfl, rfl⟩

/-- C10: the `july` field of `calculate_transaction_revenue` is the constant
`360000000` for every choice of override parameters and sentiment factors. -/
theorem calculate_transaction_revenue_july_anchor (a s t augS sepS : ℚ) :
    (calculate_transaction_revenue a s t augS sepS).july = 360000000 := rfl

/-- C6: for every input series — including degenerate all-missing trends
series — every daily `sentiment_factor` that `build_factor` produces is a
defined number inside the clipping band `[1 + max_down, 1 + max_up]`.  The
band parameters are taken at 4-decimal granularity (as the defaults
`±0.05` are), since the emitted factor is rounded to 4 decimals. -/
theorem build_factor_in_band (n : ℕ) (trendsRows : List (ℕ × ℚ))
    (reddit_volume reddit_sentiment_raw : ℕ → ℚ) (max_up max_down : ℚ)
    (hband : max_down ≤ max_up)
    (hdown : ∃ a : ℤ, max_down = (a : ℚ) / 10000)
    (hup : ∃ b : ℤ, max_up = (b : ℚ) / 10000) :
    ∀ rec ∈ build_factor n trendsRows reddit_volume reddit_sentiment_raw
        max_up max_down,
      ∃ v : ℝ, rec.sentiment_factor = some v ∧
        ((1 + max_down : ℚ) : ℝ) ≤ v ∧ v ≤ ((1 + max_up : ℚ) : ℝ) := by
  obtain ⟨a, ha⟩ := hdown
  obtain ⟨b, hb⟩ := hup
  intro rec hrec
  simp only [build_factor, List.mem_map, List.mem_range] at hrec
  obtain ⟨d, hd, hrec⟩ := hrec
  obtain ⟨zz, hz⟩ := Option.isSome_iff_exists.mp
    (sentiment_z_isSome n trendsRows reddit_volume reddit_sentiment_raw d hd)
  have hfac : rec.sentiment_factor =
      some (roundTo4 (clip (1 + zz * (15 / 1000))
        ((1 + max_down : ℚ) : ℝ) ((1 + max_up : ℚ) : ℝ))) := by
    rw [← hrec]
    simp [hz]
  exact ⟨_, hfac, (round4_clip_band zz max_down max_up a b ha hb hband).1,
    (round4_clip_band zz max_down max_up a b ha hb hband).2⟩

/-- Witness for C6: on a one-day range with an empty trends frame (an
all-missing trends series), constant Reddit inputs and the default band
`max_up = 0.05`, `max_down = -0.05`, the produced factor is a number in
`[0.95, 1.05]`. -/
theorem build_factor_in_band_witness :
    ((-5 : ℚ) / 100 ≤ 5 / 100) ∧
    ∃ v : ℝ, ((build_factor 1 [] (fun _ => 3) (fun _ => 0)
        (5 / 100) (-5 / 100)).head!).sentiment_factor = some v ∧
      ((1 + (-5 : ℚ) / 100 : ℚ) : ℝ) ≤ v ∧ v ≤ ((1 + (5 : ℚ) / 100 : ℚ) : ℝ) := by
  have hne : build_factor 1 [] (fun _ => 3) (fun _ => 0)
      (5 / 100) (-5 / 100) ≠ [] := by
    simp [build_factor]
  refine ⟨by norm_num, ?_⟩
  exact build_factor_in_band 1 [] (fun _ => 3) (fun _ => 0) (5 / 100)
    (-5 / 100) (by norm_num) ⟨-500, by norm_num⟩ ⟨500, by norm_num⟩
    _ (List.head!_mem_self hne)

/-- C7: on a series whose non-missing values are constant (zero population
standard deviation) — or that has no values at all (undefined standard
deviation) — `zscore` returns exactly `0` for every element: the guarded
branch never divides by the zero/undefined standard deviation. -/
theorem zscore_constant_zero (s : ℕ → Option ℚ) (n : ℕ) (c : ℚ)
    (h : (∀ d, d < n → s d = some c) ∨ (∀ d, d < n → s d = none)) :
    ∀ d, zscore s n d = some 0 := by
  intro d
  rcases h with h | h
  · have hf := filterMap_const_some s n c h
    simp only [zscore, hf]
    rw [if_pos (Or.inr (varQ_replicate n c))]
  · have hf : (List.range n).filterMap s = [] :=
      List.filterMap_eq_nil_iff.mpr (fun a ha => h a (List.mem_range.mp ha))
    simp only [zscore, hf]
    rw [if_pos (Or.inl (by simp))]

/-- Witness for C7: the constant series `5, 5, 5` z-scores to `0` (shown at
day 1). -/
theorem zscore_constant_zero_witness :
    zscore (fun d => if d < 3 then some (5 : ℚ) else none) 3 1 = some 0 :=
  zscore_constant_zero _ 3 5 (Or.inl (fun d hd => by simp [hd])) 1

end Coinbase
